import Mathlib

/-!
Verification development for the combat and wave-encounter layer of the
phaser3-game-demo repository.  Each definition is a shallow embedding of a
function from the JavaScript source (src/Enemy.js, src/Player.js,
src/GameScene.js); timestamps are modelled as natural numbers of
milliseconds, and the JavaScript comparison `t - last < cd` is written in
the arithmetically equivalent form `t < last + cd` to avoid truncated
subtraction artifacts.
-/

namespace Phaser3Demo

/-! ### Enemy combat state (src/Enemy.js) -/

/-- The fields of an Enemy instance that the combat logic reads or writes:
position and velocity (set by knockback), the stunned and tint flags, and
the hit-tracking fields initialised in the constructor
(`isDying = false`, `hitsTaken = 0`, `lastHitTime = 0`). -/
structure EnemyState where
  x : Int
  y : Int
  vx : Int
  vy : Int
  stunned : Bool
  tinted : Bool
  isDying : Bool
  hitsTaken : Nat
  lastHitTime : Nat
  deriving Repr, DecidableEq

/-- `this.hitsToKill = 3` in the Enemy constructor. -/
def hitsToKill : Nat := 3

/-- `this.hitCooldown = 500` in the Enemy constructor (ms between valid hits). -/
def hitCooldown : Nat := 500

/-- Embedding of `Enemy.takeDamage(damage)`.  The `damage` argument is unused
by the source for the kill decision, so it is omitted; `currentTime` stands
for `new Date().getTime()`.  Returns the updated enemy together with the
boolean return value of the source (`true` means killed). -/
def takeDamage (e : EnemyState) (currentTime : Nat) : EnemyState × Bool :=
  if e.isDying then (e, false)
  else if currentTime < e.lastHitTime + hitCooldown then (e, false)
  else
    let e1 : EnemyState :=
      { e with lastHitTime := currentTime, hitsTaken := e.hitsTaken + 1 }
    if hitsToKill ≤ e1.hitsTaken then ({ e1 with isDying := true }, true)
    else (e1, false)

theorem takeDamage_of_dying (e : EnemyState) (t : Nat) (h : e.isDying = true) :
    takeDamage e t = (e, false) := by
  simp [takeDamage, h]

theorem takeDamage_of_cooldown (e : EnemyState) (t : Nat)
    (hd : e.isDying = false) (hc : t < e.lastHitTime + hitCooldown) :
    takeDamage e t = (e, false) := by
  simp [takeDamage, hd, hc]

theorem takeDamage_accept_hits (e : EnemyState) (t : Nat)
    (hd : e.isDying = false) (hc : e.lastHitTime + hitCooldown ≤ t) :
    (takeDamage e t).1.hitsTaken = e.hitsTaken + 1 ∧
      (takeDamage e t).1.lastHitTime = t := by
  simp only [takeDamage, hd, Bool.false_eq_true, if_false, Nat.not_lt.mpr hc,
    if_neg (Nat.not_lt.mpr hc)]
  split <;> simp

theorem takeDamage_hitsTaken_increment_iff (e : EnemyState) (t : Nat) :
    (takeDamage e t).1.hitsTaken = e.hitsTaken + 1 ↔
      e.isDying = false ∧ e.lastHitTime + hitCooldown ≤ t := by
  constructor
  · intro h
    by_cases hd : e.isDying = true
    · rw [takeDamage_of_dying e t hd] at h
      simp at h
    · replace hd : e.isDying = false := by
        cases hdy : e.isDying
        · rfl
        · exact absurd hdy hd
      by_cases hc : t < e.lastHitTime + hitCooldown
      · rw [takeDamage_of_cooldown e t hd hc] at h
        simp at h
      · exact ⟨hd, Nat.le_of_not_lt hc⟩
  · intro ⟨hd, hc⟩
    exact (takeDamage_accept_hits e t hd hc).1

/-- C1: an Enemy's hit counter increments exactly when the enemy is not
dying and at least 500 ms have elapsed since the last accepted hit; a call on
a Dying enemy always returns not-killed with the counter unchanged; after an
accepted hit at time `t0`, a call at `t0 + 100` is rejected (not-killed,
counter unchanged) and a call at `t0 + 600` is accepted (counter increments)
whenever the enemy is not dying. -/
theorem C1_takeDamage_hit_window (e : EnemyState) (t0 : Nat)
    (hd : e.isDying = false) (hc : e.lastHitTime + hitCooldown ≤ t0) :
    (∀ (f : EnemyState) (t : Nat),
        (takeDamage f t).1.hitsTaken = f.hitsTaken + 1 ↔
          f.isDying = false ∧ f.lastHitTime + hitCooldown ≤ t) ∧
    (∀ (f : EnemyState) (t : Nat), f.isDying = true →
        takeDamage f t = (f, false)) ∧
    (takeDamage e t0).1.hitsTaken = e.hitsTaken + 1 ∧
    takeDamage (takeDamage e t0).1 (t0 + 100) = ((takeDamage e t0).1, false) ∧
    ((takeDamage e t0).1.isDying = false →
      (takeDamage (takeDamage e t0).1 (t0 + 600)).1.hitsTaken =
        (takeDamage e t0).1.hitsTaken + 1) := by
  have hacc := takeDamage_accept_hits e t0 hd hc
  refine ⟨takeDamage_hitsTaken_increment_iff, takeDamage_of_dying, hacc.1, ?_, ?_⟩
  · by_cases hdy : (takeDamage e t0).1.isDying = true
    · exact takeDamage_of_dying _ _ hdy
    · replace hdy : (takeDamage e t0).1.isDying = false := by
        cases h : (takeDamage e t0).1.isDying
        · rfl
        · exact absurd h hdy
      refine takeDamage_of_cooldown _ _ hdy ?_
      rw [hacc.2]
      simp [hitCooldown]
  · intro hdy
    refine (takeDamage_accept_hits _ _ hdy ?_).1
    rw [hacc.2]
    simp [hitCooldown]

/-- Closed instance of C1: a fresh enemy hit at time 1000, again at 1100
(rejected) and at 1600 (accepted). -/
theorem C1_takeDamage_hit_window_witness :
    (takeDamage
        { x := 0, y := 0, vx := 0, vy := 0, stunned := false, tinted := false,
          isDying := false, hitsTaken := 0, lastHitTime := 0 } 1000).1.hitsTaken = 1 :=
  (C1_takeDamage_hit_window
      { x := 0, y := 0, vx := 0, vy := 0, stunned := false, tinted := false,
        isDying := false, hitsTaken := 0, lastHitTime := 0 } 1000
      rfl (by decide)).2.2.1

/-! ### Player attack state and sword hit resolution (src/Player.js) -/

/-- The four cardinal attack directions tracked by `this.attackDirection`. -/
inductive Direction
  | left
  | right
  | up
  | down
  deriving Repr, DecidableEq

/-- The Player fields read by `hitEnemy`: the attacking flag and the current
attack direction. -/
structure PlayerAttack where
  isAttacking : Bool
  attackDirection : Direction
  deriving Repr, DecidableEq

/-- `this.knockbackForce = 200` in the Player constructor. -/
def knockbackForce : Int := 200

/-- `this.attackDamage = 10` in the Player constructor (passed to
`takeDamage`, which ignores its value). -/
def attackDamage : Nat := 10

/-- The knockback vector computed by the `switch (this.attackDirection)`
block of `Player.hitEnemy`: both components start at 0 and exactly one is
set to plus or minus `knockbackForce`. -/
def swordKnockback : Direction → Int × Int
  | .right => (knockbackForce, 0)
  | .left => (-knockbackForce, 0)
  | .up => (0, -knockbackForce)
  | .down => (0, knockbackForce)

/-- The outcome of `Player.hitEnemy`: the updated enemy, the delay of the
scheduled stun-clear callback when one was scheduled (`delayedCall(500, ...)`),
the delay of the scheduled tint-clear callback (`delayedCall(150, ...)`),
and the boolean return value. -/
structure HitEnemyResult where
  enemy : EnemyState
  stunClearDelay : Option Nat
  tintClearDelay : Option Nat
  hit : Bool
  deriving Repr, DecidableEq

/-- Embedding of `Player.hitEnemy(enemy)`.  Returns false immediately when
the player is not attacking; otherwise overwrites the enemy velocity with the
cardinal knockback vector, sets the stunned flag (scheduling a 500 ms clear)
unless already stunned, applies the red tint (scheduling a 150 ms clear),
invokes `enemy.takeDamage(this.attackDamage)` at `currentTime`, and returns
true regardless of the damage outcome. -/
def hitEnemy (p : PlayerAttack) (e : EnemyState) (currentTime : Nat) :
    HitEnemyResult :=
  if p.isAttacking = false then ⟨e, none, none, false⟩
  else
    let k := swordKnockback p.attackDirection
    let e1 : EnemyState := { e with vx := k.1, vy := k.2 }
    let stunned :=
      if e1.stunned = false then
        (({ e1 with stunned := true } : EnemyState), (some 500 : Option Nat))
      else (e1, none)
    let e2 : EnemyState := { stunned.1 with tinted := true }
    let dmg := takeDamage e2 currentTime
    ⟨dmg.1, stunned.2, some 150, true⟩

theorem takeDamage_not_accept (e : EnemyState) (t : Nat)
    (h : ¬(e.isDying = false ∧ e.lastHitTime + hitCooldown ≤ t)) :
    takeDamage e t = (e, false) := by
  by_cases hd : e.isDying = true
  · exact takeDamage_of_dying e t hd
  · have hd' : e.isDying = false := by
      cases hdd : e.isDying
      · rfl
      · exact absurd hdd hd
    have hc : t < e.lastHitTime + hitCooldown := by
      by_contra hc
      exact h ⟨hd', Nat.le_of_not_lt hc⟩
    exact takeDamage_of_cooldown e t hd' hc

theorem takeDamage_preserves_presentation (e : EnemyState) (t : Nat) :
    (takeDamage e t).1.vx = e.vx ∧ (takeDamage e t).1.vy = e.vy ∧
      (takeDamage e t).1.stunned = e.stunned ∧
      (takeDamage e t).1.tinted = e.tinted := by
  simp only [takeDamage]
  split
  · simp
  · split
    · simp
    · split <;> simp

/-- C4: the sword knockback has fixed squared magnitude `200 ^ 2` and lies
purely on one cardinal axis for every attack direction, and an attacking
player whose attack direction is up always leaves the struck enemy with
velocity `(0, -200)`, for every enemy state (hence regardless of the enemy's
position). -/
theorem C4_sword_knockback_cardinal (p : PlayerAttack) (e : EnemyState)
    (t : Nat) (hAtt : p.isAttacking = true) :
    ((swordKnockback p.attackDirection).1 ^ 2 +
        (swordKnockback p.attackDirection).2 ^ 2 = 200 ^ 2) ∧
    ((swordKnockback p.attackDirection).1 = 0 ∨
        (swordKnockback p.attackDirection).2 = 0) ∧
    (p.attackDirection = .up →
      (hitEnemy p e t).enemy.vx = 0 ∧ (hitEnemy p e t).enemy.vy = -200) := by
  refine ⟨?_, ?_, ?_⟩
  · cases p.attackDirection <;> simp [swordKnockback, knockbackForce]
  · cases p.attackDirection <;> simp [swordKnockback]
  · intro hup
    have hpres := fun (f : EnemyState) => takeDamage_preserves_presentation f t
    simp only [hitEnemy, hAtt, Bool.true_eq_false, if_false, hup]
    constructor
    · split <;> simp [(hpres _).1, swordKnockback, knockbackForce]
    · split <;> simp [(hpres _).2.1, swordKnockback, knockbackForce]

/-- Closed instance of C4: an enemy positioned far off-axis at (999, -7) is
still knocked back along exactly (0, -200) by an upward attack. -/
theorem C4_sword_knockback_cardinal_witness :
    (hitEnemy ⟨true, .up⟩
        { x := 999, y := -7, vx := 50, vy := 50, stunned := false,
          tinted := false, isDying := false, hitsTaken := 0,
          lastHitTime := 0 } 1000).enemy.vx = 0 :=
  ((C4_sword_knockback_cardinal ⟨true, .up⟩
      { x := 999, y := -7, vx := 50, vy := 50, stunned := false,
        tinted := false, isDying := false, hitsTaken := 0,
        lastHitTime := 0 } 1000 rfl).2.2 rfl).1

/-- C10: whenever the player is attacking, `hitEnemy` applies the cardinal
knockback velocity, applies the tint with a 150 ms clear, sets the stun with
a 500 ms clear when not already stunned (and schedules no stun-clear when
already stunned), and returns true — even when `takeDamage` rejects the hit
because the enemy is dying or inside the 500 ms hit cooldown (the counter is
then unchanged); when the player is not attacking the call is a complete
no-op returning false. -/
theorem C10_hitEnemy_always_reports_hit (p : PlayerAttack) (e : EnemyState)
    (t : Nat) (hAtt : p.isAttacking = true) :
    (∀ (q : PlayerAttack) (f : EnemyState) (u : Nat), q.isAttacking = false →
        hitEnemy q f u = ⟨f, none, none, false⟩) ∧
    (hitEnemy p e t).hit = true ∧
    (hitEnemy p e t).enemy.vx = (swordKnockback p.attackDirection).1 ∧
    (hitEnemy p e t).enemy.vy = (swordKnockback p.attackDirection).2 ∧
    (hitEnemy p e t).enemy.tinted = true ∧
    (hitEnemy p e t).tintClearDelay = some 150 ∧
    (e.stunned = false → (hitEnemy p e t).enemy.stunned = true ∧
        (hitEnemy p e t).stunClearDelay = some 500) ∧
    (e.stunned = true → (hitEnemy p e t).stunClearDelay = none) ∧
    (e.isDying = true →
      (hitEnemy p e t).hit = true ∧
        (hitEnemy p e t).enemy.hitsTaken = e.hitsTaken) ∧
    (e.isDying = false → t < e.lastHitTime + hitCooldown →
      (hitEnemy p e t).hit = true ∧
        (hitEnemy p e t).enemy.hitsTaken = e.hitsTaken) := by
  have hpres := fun (f : EnemyState) => takeDamage_preserves_presentation f t
  refine ⟨fun q f u hq => by simp [hitEnemy, hq], ?_, ?_, ?_, ?_, ?_, ?_, ?_, ?_, ?_⟩
  · simp [hitEnemy, hAtt]
  · simp only [hitEnemy, hAtt, Bool.true_eq_false, if_false]
    split <;> simp [(hpres _).1]
  · simp only [hitEnemy, hAtt, Bool.true_eq_false, if_false]
    split <;> simp [(hpres _).2.1]
  · simp only [hitEnemy, hAtt, Bool.true_eq_false, if_false]
    split <;> simp [(hpres _).2.2.2]
  · simp [hitEnemy, hAtt]
  · intro hst
    simp only [hitEnemy, hAtt, Bool.true_eq_false, if_false, hst]
    constructor
    · simp [(hpres _).2.2.1]
    · simp
  · intro hst
    simp [hitEnemy, hAtt, hst]
  · intro hdy
    refine ⟨by simp [hitEnemy, hAtt], ?_⟩
    simp only [hitEnemy, hAtt, Bool.true_eq_false, if_false]
    split
    all_goals rw [takeDamage_not_accept]
    all_goals simp [hdy]
  · intro hdy hcd
    refine ⟨by simp [hitEnemy, hAtt], ?_⟩
    simp only [hitEnemy, hAtt, Bool.true_eq_false, if_false]
    split
    all_goals rw [takeDamage_not_accept]
    all_goals simp [hdy]
    all_goals omega

/-- Closed instance of C10: hitting an already-dying enemy while attacking
still reports a hit while its counter stays at 2. -/
theorem C10_hitEnemy_always_reports_hit_witness :
    (hitEnemy ⟨true, .left⟩
        { x := 0, y := 0, vx := 0, vy := 0, stunned := false, tinted := false,
          isDying := true, hitsTaken := 2, lastHitTime := 40 } 90).hit = true :=
  (C10_hitEnemy_always_reports_hit ⟨true, .left⟩
      { x := 0, y := 0, vx := 0, vy := 0, stunned := false, tinted := false,
        isDying := true, hitsTaken := 2, lastHitTime := 40 } 90 rfl).2.1

/-! ### Wave director (src/GameScene.js) -/

/-- The wave bookkeeping of GameScene: `currentWave` and `maxWaves` (set to 0
and 5 in `create()`), the `enemies` array modelled by its length (the destroy
handler only removes one element and tests `length === 0`), the pending
`delayedCall` that will invoke `startNextWave` (holding its delay in ms), and
whether `showGameWon` has run. -/
structure EncounterState where
  currentWave : Nat
  maxWaves : Nat
  aliveEnemies : Nat
  pendingNextWave : Option Nat
  won : Bool
  deriving Repr, DecidableEq

/-- Embedding of `GameScene.startNextWave()`: increment the wave counter;
if it now exceeds `maxWaves`, show the victory state and spawn nothing;
otherwise spawn exactly `currentWave` enemies (each `spawnEnemy` call pushes
one enemy onto the array).  The second component is the number of enemies
spawned by this call. -/
def startNextWave (s : EncounterState) : EncounterState × Nat :=
  let s1 : EncounterState := { s with currentWave := s.currentWave + 1 }
  if s1.maxWaves < s1.currentWave then ({ s1 with won := true }, 0)
  else ({ s1 with aliveEnemies := s1.aliveEnemies + s1.currentWave }, s1.currentWave)

/-- Iterated `startNextWave`, ignoring spawn counts. -/
def wavesAfter (s : EncounterState) : Nat → EncounterState
  | 0 => s
  | n + 1 => (startNextWave (wavesAfter s n)).1

/-- The 1000 ms pause scheduled by the enemy destroy handler before the next
wave starts (`this.time.delayedCall(1000, ...)`). -/
def nextWaveDelay : Nat := 1000

/-- The two events that drive the wave bookkeeping: the `destroy` handler of
a spawned enemy firing, and the scheduled next-wave timer firing. -/
inductive EncounterEvent
  | destroyEnemy
  | waveTimerFire
  deriving Repr, DecidableEq

/-- One event of the encounter system.  `destroyEnemy` embeds the handler
installed in `spawnEnemy`: filter the enemy out of the array and, if the
array is now empty, schedule `startNextWave` after `nextWaveDelay`.
`waveTimerFire` embeds that scheduled timer firing: the timer is consumed
and `startNextWave` runs.  `none` means the event is not enabled. -/
def encounterStep (s : EncounterState) : EncounterEvent → Option EncounterState
  | .destroyEnemy =>
    if s.aliveEnemies = 0 then none
    else
      let remaining := s.aliveEnemies - 1
      some { s with
        aliveEnemies := remaining,
        pendingNextWave :=
          if remaining = 0 then some nextWaveDelay else s.pendingNextWave }
  | .waveTimerFire =>
    match s.pendingNextWave with
    | none => none
    | some _ =>
      some (startNextWave { s with pendingNextWave := (none : Option Nat) }).1

/-- The state right after `create()`: wave counter 0, max 5, empty enemy
array, then the initial `startNextWave()` call. -/
def initialEncounter : EncounterState :=
  (startNextWave
      { currentWave := 0, maxWaves := 5, aliveEnemies := 0,
        pendingNextWave := none, won := false }).1

/-- Encounter states reachable from scene creation through destroy-handler
and timer events. -/
inductive ReachableEncounter : EncounterState → Prop
  | init : ReachableEncounter initialEncounter
  | step {s s' : EncounterState} {e : EncounterEvent} :
      ReachableEncounter s → encounterStep s e = some s' → ReachableEncounter s'

theorem startNextWave_currentWave (s : EncounterState) :
    (startNextWave s).1.currentWave = s.currentWave + 1 := by
  simp only [startNextWave]
  split <;> rfl

theorem startNextWave_maxWaves (s : EncounterState) :
    (startNextWave s).1.maxWaves = s.maxWaves := by
  simp only [startNextWave]
  split <;> rfl

theorem startNextWave_pending (s : EncounterState) :
    (startNextWave s).1.pendingNextWave = s.pendingNextWave := by
  simp only [startNextWave]
  split <;> rfl

theorem startNextWave_spawn_zero (s : EncounterState)
    (h : s.maxWaves < s.currentWave + 1) : (startNextWave s).2 = 0 := by
  simp [startNextWave, h]

theorem wavesAfter_currentWave_le (s : EncounterState) (n : Nat) :
    s.currentWave ≤ (wavesAfter s n).currentWave := by
  induction n with
  | zero => exact Nat.le_refl _
  | succ n ih =>
    calc s.currentWave ≤ (wavesAfter s n).currentWave := ih
      _ ≤ (wavesAfter s n).currentWave + 1 := Nat.le_succ _
      _ = (wavesAfter s (n + 1)).currentWave :=
          (startNextWave_currentWave (wavesAfter s n)).symm

theorem wavesAfter_maxWaves (s : EncounterState) (n : Nat) :
    (wavesAfter s n).maxWaves = s.maxWaves := by
  induction n with
  | zero => rfl
  | succ n ih => rw [wavesAfter, startNextWave_maxWaves, ih]

/-- C2: `startNextWave` increments the wave counter and spawns exactly the
new wave number of enemies while that number is within `maxWaves`; as soon
as the incremented counter exceeds `maxWaves` it sets the won state and
spawns 0; and once the counter has reached `maxWaves`, this call and every
later call spawn 0. -/
theorem C2_startNextWave_spawn_counts (s : EncounterState) :
    ((startNextWave s).1.currentWave = s.currentWave + 1) ∧
    (s.currentWave + 1 ≤ s.maxWaves →
      (startNextWave s).2 = s.currentWave + 1 ∧
        (startNextWave s).1.won = s.won) ∧
    (s.maxWaves < s.currentWave + 1 →
      (startNextWave s).2 = 0 ∧ (startNextWave s).1.won = true) ∧
    (s.maxWaves ≤ s.currentWave →
      ∀ n : Nat, (startNextWave (wavesAfter s n)).2 = 0) := by
  refine ⟨startNextWave_currentWave s, ?_, ?_, ?_⟩
  · intro h
    have h' : ¬ s.maxWaves < s.currentWave + 1 := Nat.not_lt.mpr h
    simp [startNextWave, h']
  · intro h
    exact ⟨startNextWave_spawn_zero s h, by simp [startNextWave, h]⟩
  · intro h n
    refine startNextWave_spawn_zero _ ?_
    rw [wavesAfter_maxWaves]
    have := wavesAfter_currentWave_le s n
    omega

/-- Closed instance of C2: from the created scene (wave 0, max 5) the first
call spawns exactly 1 enemy, and a call made at wave 5 spawns 0 and wins. -/
theorem C2_startNextWave_spawn_counts_witness :
    (startNextWave
        { currentWave := 0, maxWaves := 5, aliveEnemies := 0,
          pendingNextWave := none, won := false }).2 = 1 ∧
    (startNextWave
        { currentWave := 5, maxWaves := 5, aliveEnemies := 0,
          pendingNextWave := none, won := false }).2 = 0 :=
  ⟨((C2_startNextWave_spawn_counts
      { currentWave := 0, maxWaves := 5, aliveEnemies := 0,
        pendingNextWave := none, won := false }).2.1 (by decide)).1,
   ((C2_startNextWave_spawn_counts
      { currentWave := 5, maxWaves := 5, aliveEnemies := 0,
        pendingNextWave := none, won := false }).2.2.1 (by decide)).1⟩

theorem encounter_pending_invariant {s : EncounterState}
    (h : ReachableEncounter s) :
    ∀ d, s.pendingNextWave = some d → s.aliveEnemies = 0 ∧ d = nextWaveDelay := by
  induction h with
  | init =>
    intro d hd
    have hinit : initialEncounter =
        { currentWave := 1, maxWaves := 5, aliveEnemies := 1,
          pendingNextWave := none, won := false } := by decide
    rw [hinit] at hd
    simp at hd
  | @step s s' e hr hs ih =>
    intro d hd
    cases e with
    | destroyEnemy =>
      by_cases hz : s.aliveEnemies = 0
      · simp [encounterStep, hz] at hs
      · simp only [encounterStep, if_neg hz, Option.some.injEq] at hs
        subst hs
        by_cases hrem : s.aliveEnemies - 1 = 0
        · refine ⟨hrem, ?_⟩
          simp only [nextWaveDelay]
          simp [hrem, nextWaveDelay] at hd
          omega
        · simp only [if_neg hrem] at hd
          exact absurd (ih d hd).1 hz
    | waveTimerFire =>
      cases hp : s.pendingNextWave with
      | none => simp [encounterStep, hp] at hs
      | some d0 =>
        simp only [encounterStep, hp, Option.some.injEq] at hs
        subst hs
        rw [startNextWave_pending] at hd
        simp at hd

/-- C7: in every reachable encounter state in which the scheduled
next-wave timer can fire (that is, whenever `startNextWave` is about to be
invoked by the destroy-handler path), the alive-enemy list is empty and the
scheduled delay is exactly 1000 ms. -/
theorem C7_nextWave_only_when_no_enemies (s s' : EncounterState)
    (hr : ReachableEncounter s)
    (hf : encounterStep s .waveTimerFire = some s') :
    s.aliveEnemies = 0 ∧ s.pendingNextWave = some nextWaveDelay := by
  cases hp : s.pendingNextWave with
  | none => simp [encounterStep, hp] at hf
  | some d =>
    have hinv := encounter_pending_invariant hr d hp
    exact ⟨hinv.1, by simp [hp, hinv.2]⟩

/-- Closed instance of C7: after the single enemy of wave 1 is destroyed,
the state reached has an empty alive list and a pending 1000 ms timer, and
the timer event is enabled there. -/
theorem C7_nextWave_only_when_no_enemies_witness :
    ({ currentWave := 1, maxWaves := 5, aliveEnemies := 0,
       pendingNextWave := some 1000, won := false } :
        EncounterState).aliveEnemies = 0 ∧
    ({ currentWave := 1, maxWaves := 5, aliveEnemies := 0,
       pendingNextWave := some 1000, won := false } :
        EncounterState).pendingNextWave = some nextWaveDelay :=
  C7_nextWave_only_when_no_enemies
    { currentWave := 1, maxWaves := 5, aliveEnemies := 0,
      pendingNextWave := some 1000, won := false }
    { currentWave := 2, maxWaves := 5, aliveEnemies := 2,
      pendingNextWave := none, won := false }
    (@ReachableEncounter.step _ _ EncounterEvent.destroyEnemy
      ReachableEncounter.init (by decide))
    (by decide)

/-! ### Breakable item tracker (src/GameScene.js) -/

/-- A record stored in `this.breakableItems`: hit count, destruction
threshold (`maxHits: 2` in `initBreakableItems`) and the timestamp of the
last accepted hit (initialised to 0, meaning no hit yet). -/
structure BreakableItem where
  hits : Nat
  maxHits : Nat
  lastHitTime : Nat
  deriving Repr, DecidableEq

/-- A tile coordinate pair, the key of the breakable-items map. -/
abbrev TileKey := Nat × Nat

/-- The scene state the item-hit path touches: the tracking map (an
association list standing for the JavaScript `Map`) and the set of tiles
present in the items layer. -/
structure ItemsState where
  breakableItems : List (TileKey × BreakableItem)
  itemTiles : List TileKey
  deriving Repr, DecidableEq

/-- `Map.get` on the association list. -/
def lookupItem (m : List (TileKey × BreakableItem)) (k : TileKey) :
    Option BreakableItem :=
  match m with
  | [] => none
  | (k0, v) :: rest => if k0 = k then some v else lookupItem rest k

/-- In-place mutation of the record held in the `Map` (the JavaScript code
mutates the object returned by `get`). -/
def setItem (m : List (TileKey × BreakableItem)) (k : TileKey)
    (v : BreakableItem) : List (TileKey × BreakableItem) :=
  match m with
  | [] => []
  | (k0, v0) :: rest =>
    if k0 = k then (k0, v) :: rest else (k0, v0) :: setItem rest k v

/-- `Map.delete` on the association list. -/
def eraseItem (m : List (TileKey × BreakableItem)) (k : TileKey) :
    List (TileKey × BreakableItem) :=
  match m with
  | [] => []
  | (k0, v0) :: rest =>
    if k0 = k then rest else (k0, v0) :: eraseItem rest k

/-- Embedding of `GameScene.hitBreakableItem(tileKey)` at scene time `now`
(`this.time.now`).  The JavaScript truthiness test
`item.lastHitTime && now - item.lastHitTime < 500` is the per-tile
debounce; the subtraction is written as `now < lastHitTime + 500`.  When the
incremented count reaches `maxHits` the tile is removed from the items layer
and the record deleted from the map.  Callers guard the call with
`breakableItems.has(tileKey)`, so an absent key is modelled as the guarded
no-op. -/
def hitBreakableItem (s : ItemsState) (key : TileKey) (now : Nat) :
    ItemsState :=
  match lookupItem s.breakableItems key with
  | none => s
  | some item =>
    if item.lastHitTime ≠ 0 ∧ now < item.lastHitTime + 500 then s
    else
      let item1 : BreakableItem :=
        { item with lastHitTime := now, hits := item.hits + 1 }
      if item1.maxHits ≤ item1.hits then
        { breakableItems := eraseItem s.breakableItems key,
          itemTiles := s.itemTiles.filter (fun t => t ≠ key) }
      else
        { s with breakableItems := setItem s.breakableItems key item1 }

theorem lookupItem_setItem (m : List (TileKey × BreakableItem)) (k : TileKey)
    (v : BreakableItem) (h : lookupItem m k ≠ none) :
    lookupItem (setItem m k v) k = some v := by
  induction m with
  | nil => simp [lookupItem] at h
  | cons hd tl ih =>
    by_cases hk : hd.1 = k
    · simp [setItem, lookupItem, hk]
    · simp only [setItem, lookupItem, if_neg hk] at h ⊢
      exact ih h

theorem lookupItem_eq_none_of_not_mem (m : List (TileKey × BreakableItem))
    (k : TileKey) (h : k ∉ m.map Prod.fst) : lookupItem m k = none := by
  induction m with
  | nil => rfl
  | cons hd tl ih =>
    simp only [List.map_cons, List.mem_cons, not_or] at h
    simp only [lookupItem]
    rw [if_neg (show ¬hd.1 = k from fun hc => h.1 hc.symm)]
    exact ih h.2

theorem lookupItem_eraseItem (m : List (TileKey × BreakableItem))
    (k : TileKey) (hnd : (m.map Prod.fst).Nodup) :
    lookupItem (eraseItem m k) k = none := by
  induction m with
  | nil => rfl
  | cons hd tl ih =>
    simp only [List.map_cons, List.nodup_cons] at hnd
    by_cases hk : hd.1 = k
    · simp only [eraseItem, if_pos hk]
      refine lookupItem_eq_none_of_not_mem tl k ?_
      rw [← hk]
      exact hnd.1
    · simp only [eraseItem, if_neg hk, lookupItem, if_neg hk]
      exact ih hnd.2

theorem setItem_keys (m : List (TileKey × BreakableItem)) (k : TileKey)
    (v : BreakableItem) : (setItem m k v).map Prod.fst = m.map Prod.fst := by
  induction m with
  | nil => rfl
  | cons hd tl ih =>
    by_cases hk : hd.1 = k
    · simp [setItem, hk]
    · simp [setItem, hk, ih]

/-- The mutated record after an accepted item hit
(`item.lastHitTime = now; item.hits++`). -/
def acceptedItem (it : BreakableItem) (now : Nat) : BreakableItem :=
  { it with lastHitTime := now, hits := it.hits + 1 }

theorem hitBreakableItem_accept (s : ItemsState) (k : TileKey)
    (it : BreakableItem) (now : Nat)
    (hl : lookupItem s.breakableItems k = some it)
    (hdeb : ¬(it.lastHitTime ≠ 0 ∧ now < it.lastHitTime + 500))
    (hsurv : it.hits + 1 < it.maxHits) :
    hitBreakableItem s k now =
      { s with breakableItems :=
          setItem s.breakableItems k (acceptedItem it now) } := by
  simp only [hitBreakableItem, hl, if_neg hdeb]
  rw [if_neg (Nat.not_le.mpr hsurv)]
  rfl

theorem hitBreakableItem_break (s : ItemsState) (k : TileKey)
    (it : BreakableItem) (now : Nat)
    (hl : lookupItem s.breakableItems k = some it)
    (hdeb : ¬(it.lastHitTime ≠ 0 ∧ now < it.lastHitTime + 500))
    (hbreak : it.maxHits ≤ it.hits + 1) :
    hitBreakableItem s k now =
      { breakableItems := eraseItem s.breakableItems k,
        itemTiles := s.itemTiles.filter (fun t => t ≠ k) } := by
  simp only [hitBreakableItem, hl, if_neg hdeb]
  rw [if_pos hbreak]

theorem hitBreakableItem_debounce (s : ItemsState) (k : TileKey)
    (it : BreakableItem) (now : Nat)
    (hl : lookupItem s.breakableItems k = some it)
    (h0 : it.lastHitTime ≠ 0) (hwin : now < it.lastHitTime + 500) :
    hitBreakableItem s k now = s := by
  simp [hitBreakableItem, hl, h0, hwin]

/-- C3: for a tracked breakable item with `maxHits = 2` and no prior hit, a
hit inside the 500 ms window of the tile's last accepted hit is a no-op in
general; a first accepted hit at positive time `t1` leaves the record at one
hit, a second hit at `t1 + 200` changes nothing, and a second accepted hit
at `t2 ≥ t1 + 500` removes the record from the tracking map and the tile
from the items layer. -/
theorem C3_breakable_item_lifecycle (s : ItemsState) (key : TileKey)
    (item : BreakableItem) (t1 t2 : Nat)
    (hnd : (s.breakableItems.map Prod.fst).Nodup)
    (hl : lookupItem s.breakableItems key = some item)
    (hmax : item.maxHits = 2) (hfresh : item.hits = 0)
    (hlast : item.lastHitTime = 0) (ht1 : 0 < t1) (ht2 : t1 + 500 ≤ t2) :
    (∀ (s0 : ItemsState) (k : TileKey) (it : BreakableItem) (now : Nat),
        lookupItem s0.breakableItems k = some it → it.lastHitTime ≠ 0 →
        now < it.lastHitTime + 500 → hitBreakableItem s0 k now = s0) ∧
    lookupItem (hitBreakableItem s key t1).breakableItems key =
      some { hits := 1, maxHits := 2, lastHitTime := t1 } ∧
    hitBreakableItem (hitBreakableItem s key t1) key (t1 + 200) =
      hitBreakableItem s key t1 ∧
    lookupItem
      (hitBreakableItem (hitBreakableItem s key t1) key t2).breakableItems
      key = none ∧
    key ∉
      (hitBreakableItem (hitBreakableItem s key t1) key t2).itemTiles := by
  have hs1 : hitBreakableItem s key t1 =
      { s with breakableItems :=
          setItem s.breakableItems key (acceptedItem item t1) } :=
    hitBreakableItem_accept s key item t1 hl (fun h => h.1 hlast)
      (by omega)
  have hl1 : lookupItem (hitBreakableItem s key t1).breakableItems key =
      some ({ hits := 1, maxHits := 2, lastHitTime := t1 } : BreakableItem) := by
    rw [hs1, lookupItem_setItem _ _ _ (by rw [hl]; simp)]
    simp [acceptedItem, hfresh, hmax]
  have hnd1 : ((hitBreakableItem s key t1).breakableItems.map
      Prod.fst).Nodup := by
    rw [hs1, setItem_keys]
    exact hnd
  have hs2 : hitBreakableItem (hitBreakableItem s key t1) key t2 =
      { breakableItems :=
          eraseItem (hitBreakableItem s key t1).breakableItems key,
        itemTiles :=
          (hitBreakableItem s key t1).itemTiles.filter
            (fun t => t ≠ key) } :=
    hitBreakableItem_break _ key _ t2 hl1
      (fun h => absurd h.2 (show ¬ t2 < t1 + 500 by omega))
      (show (2 : Nat) ≤ 1 + 1 by omega)
  refine ⟨hitBreakableItem_debounce, hl1, ?_, ?_, ?_⟩
  · exact hitBreakableItem_debounce _ key _ _ hl1
      (show t1 ≠ 0 by omega) (show t1 + 200 < t1 + 500 by omega)
  · rw [hs2]
    exact lookupItem_eraseItem _ key hnd1
  · rw [hs2]
    intro hmem
    simp only [List.mem_filter, decide_eq_true_eq] at hmem
    exact hmem.2 rfl

/-- Closed instance of C3: a single pot at tile (3, 4), hit at times 1000,
1200 (rejected) and 1600 (breaks). -/
theorem C3_breakable_item_lifecycle_witness :
    lookupItem
      (hitBreakableItem
        (hitBreakableItem
          { breakableItems :=
              [((3, 4), { hits := 0, maxHits := 2, lastHitTime := 0 })],
            itemTiles := [(3, 4)] } (3, 4) 1000)
        (3, 4) 1600).breakableItems (3, 4) = none :=
  (C3_breakable_item_lifecycle
      { breakableItems :=
          [((3, 4), { hits := 0, maxHits := 2, lastHitTime := 0 })],
        itemTiles := [(3, 4)] }
      (3, 4) { hits := 0, maxHits := 2, lastHitTime := 0 } 1000 1600
      (by decide) (by decide) rfl rfl rfl (by decide) (by decide)).2.2.2.1

/-! ### Player health, invincibility and the enemy-touch collision
(src/GameScene.js) -/

/-- The player health path: the UI health fields (`currentHealth`, stored
clamped into `[0, maxHealth]` by `UI.updateHealth`; `maxHealth` is
`playerMaxHealth = 5`), the `playerInvincible` flag, whether `playerDeath`
has run, and the delay of the scheduled invincibility reset when one is
pending. -/
structure PlayerHealth where
  health : Nat
  maxHealth : Nat
  invincible : Bool
  dead : Bool
  invincibilityResetDelay : Option Nat
  deriving Repr, DecidableEq

/-- `this.invincibilityTime = 1000` in the GameScene constructor. -/
def invincibilityTime : Nat := 1000

/-- The health-store line of `UI.updateHealth(health)` (UI.js):
`this.currentHealth = Math.max(0, Math.min(health, this.maxHealth))`.  The
argument may be negative, the stored value never is. -/
def updateHealthClamp (maxHealth : Nat) (health : Int) : Nat :=
  (max 0 (min health (maxHealth : Int))).toNat

/-- Embedding of `UI.damagePlayer(amount)` (UI.js): computes the unclamped
`newHealth = currentHealth - amount`, stores the clamped value through
`updateHealth`, and returns the unclamped `newHealth`.  First component:
the new stored health; second component: the return value handed back to
`GameScene.damagePlayer`. -/
def uiDamagePlayer (currentHealth maxHealth amount : Nat) : Nat × Int :=
  let newHealth : Int := (currentHealth : Int) - (amount : Int)
  (updateHealthClamp maxHealth newHealth, newHealth)

/-- Embedding of `GameScene.damagePlayer()`: a no-op while
`playerInvincible` is set; otherwise applies 1 damage through the UI, and
either triggers `playerDeath` (skipping the invincibility setup) when the
returned health is `≤ 0`, or sets the invincibility flag and schedules its
reset after `invincibilityTime`. -/
def damagePlayer (s : PlayerHealth) : PlayerHealth :=
  if s.invincible then s
  else
    let r := uiDamagePlayer s.health s.maxHealth 1
    if r.2 ≤ 0 then { s with health := r.1, dead := true }
    else
      { s with health := r.1, invincible := true,
               invincibilityResetDelay := some invincibilityTime }

/-- C5: a damage call while the invincibility flag is set leaves the whole
health state unchanged; an accepted call whose resulting health is
positive stores that health, sets the invincibility flag with a 1000 ms
reset and does not trigger death; an accepted call whose resulting health
is `≤ 0` stores health 0 (the clamp, never negative), triggers the death
sequence and skips the invincibility setup. -/
theorem C5_damagePlayer_invincibility (s : PlayerHealth) :
    (s.invincible = true → damagePlayer s = s) ∧
    (s.invincible = false → 0 < (uiDamagePlayer s.health s.maxHealth 1).2 →
      (damagePlayer s).health = (uiDamagePlayer s.health s.maxHealth 1).1 ∧
      (damagePlayer s).invincible = true ∧
      (damagePlayer s).invincibilityResetDelay = some 1000 ∧
      (damagePlayer s).dead = s.dead) ∧
    (s.invincible = false → (uiDamagePlayer s.health s.maxHealth 1).2 ≤ 0 →
      (damagePlayer s).health = 0 ∧
      (damagePlayer s).dead = true ∧
      (damagePlayer s).invincible = false ∧
      (damagePlayer s).invincibilityResetDelay = s.invincibilityResetDelay) := by
  refine ⟨?_, ?_, ?_⟩
  · intro h
    simp [damagePlayer, h]
  · intro h hpos
    have hne : ¬ (uiDamagePlayer s.health s.maxHealth 1).2 ≤ 0 := by omega
    simp [damagePlayer, h, hne, invincibilityTime]
  · intro h hz
    have hzero : (uiDamagePlayer s.health s.maxHealth 1).1 = 0 := by
      simp only [uiDamagePlayer, updateHealthClamp] at hz ⊢
      omega
    simp [damagePlayer, h, hz, hzero]

/-- Closed instance of C5: an invincible player at 3/5 health takes no
damage, and a vulnerable player at 3/5 drops to 2 and becomes invincible
with a 1000 ms reset. -/
theorem C5_damagePlayer_invincibility_witness :
    damagePlayer
        { health := 3, maxHealth := 5, invincible := true, dead := false,
          invincibilityResetDelay := none } =
      { health := 3, maxHealth := 5, invincible := true, dead := false,
        invincibilityResetDelay := none } ∧
    (damagePlayer
        { health := 3, maxHealth := 5, invincible := false, dead := false,
          invincibilityResetDelay := none }).invincible = true :=
  ⟨(C5_damagePlayer_invincibility
      { health := 3, maxHealth := 5, invincible := true, dead := false,
        invincibilityResetDelay := none }).1 rfl,
   ((C5_damagePlayer_invincibility
      { health := 3, maxHealth := 5, invincible := false, dead := false,
        invincibilityResetDelay := none }).2.1 rfl (by decide)).2.1⟩

/-- The player fields touched by the enemy-touch collision: position,
velocity, the knocked-back flag set by `Player.knockback`, and the red
tint applied by `playerHit`. -/
structure PlayerMotion where
  x : ℚ
  y : ℚ
  vx : ℚ
  vy : ℚ
  isKnockedBack : Bool
  tinted : Bool
  deriving Repr, DecidableEq

/-- `this.knockbackDuration = 300` in the Player constructor. -/
def knockbackDuration : Nat := 300

/-- Embedding of `Player.knockback(velocityX, velocityY)`: set the
knocked-back flag, apply the velocity once, and schedule the flag reset
after `knockbackDuration` (returned as the second component). -/
def playerKnockback (p : PlayerMotion) (vx vy : ℚ) : PlayerMotion × Nat :=
  ({ p with isKnockedBack := true, vx := vx, vy := vy }, knockbackDuration)

/-- Everything `GameScene.playerHit` produces: the updated player motion
state, the health state after `damagePlayer`, the scheduled tint-clear
delay, the scheduled knockback-clear delay, and the position of the spawned
contact hit effect. -/
structure PlayerHitResult where
  player : PlayerMotion
  health : PlayerHealth
  tintClearDelay : Nat
  knockbackClearDelay : Nat
  contactEffectAt : Option (ℚ × ℚ)
  deriving Repr, DecidableEq

/-- `knockbackSpeed = 300` in `GameScene.playerHit`. -/
def knockbackSpeed : ℚ := 300

/-- Embedding of `GameScene.playerHit(player, enemy)`.  `cosA` and `sinA`
stand for the cosine and sine of the engine-computed angle from the enemy
to the player (`Phaser.Math.Angle.Between`).  The handler unconditionally
tints the player red (clearing after 100 ms), applies knockback of speed
300 along that angle, spawns a hit effect 10 units behind the player along
the angle, and finally calls `damagePlayer`. -/
def playerHit (p : PlayerMotion) (h : PlayerHealth) (cosA sinA : ℚ) :
    PlayerHitResult :=
  let p1 : PlayerMotion := { p with tinted := true }
  let kb := playerKnockback p1 (cosA * knockbackSpeed) (sinA * knockbackSpeed)
  { player := kb.1
    health := damagePlayer h
    tintClearDelay := 100
    knockbackClearDelay := kb.2
    contactEffectAt := some (p.x - cosA * 10, p.y - sinA * 10) }

/-- Counterexample to C8 as stated: with the invincibility flag set, an
enemy touching the player still flashes the player, still sets the
knocked-back state with the knockback velocity along the enemy-to-player
angle, and still spawns the contact-feedback effect; only the damage is
suppressed. -/
theorem C8_counterexample :
    (playerHit
        { x := 0, y := 0, vx := 0, vy := 0, isKnockedBack := false,
          tinted := false }
        { health := 5, maxHealth := 5, invincible := true, dead := false,
          invincibilityResetDelay := none } (-1) 0).player.tinted = true ∧
    (playerHit
        { x := 0, y := 0, vx := 0, vy := 0, isKnockedBack := false,
          tinted := false }
        { health := 5, maxHealth := 5, invincible := true, dead := false,
          invincibilityResetDelay := none } (-1) 0).player.isKnockedBack =
      true ∧
    (playerHit
        { x := 0, y := 0, vx := 0, vy := 0, isKnockedBack := false,
          tinted := false }
        { health := 5, maxHealth := 5, invincible := true, dead := false,
          invincibilityResetDelay := none } (-1) 0).player.vx = -300 ∧
    (playerHit
        { x := 0, y := 0, vx := 0, vy := 0, isKnockedBack := false,
          tinted := false }
        { health := 5, maxHealth := 5, invincible := true, dead := false,
          invincibilityResetDelay := none } (-1) 0).contactEffectAt =
      some (10, 0) := by
  refine ⟨rfl, rfl, ?_, ?_⟩
  · show (-1 : ℚ) * knockbackSpeed = -300
    norm_num [knockbackSpeed]
  · show some ((0 : ℚ) - (-1) * 10, (0 : ℚ) - 0 * 10) = some (10, 0)
    norm_num

/-- C8 amended: while the player is invincible, the enemy-touch collision
handler still runs in full — the flash, the knockback along the
enemy-to-player angle, and the contact-feedback effect all occur — but the
damage path is a no-op: the health state is returned unchanged (no health
loss, no death trigger, no new invincibility window). -/
theorem C8_invincible_skips_damage_only (p : PlayerMotion)
    (h : PlayerHealth) (cosA sinA : ℚ) (hinv : h.invincible = true) :
    (playerHit p h cosA sinA).health = h ∧
    (playerHit p h cosA sinA).player.tinted = true ∧
    (playerHit p h cosA sinA).player.isKnockedBack = true ∧
    (playerHit p h cosA sinA).player.vx = cosA * knockbackSpeed ∧
    (playerHit p h cosA sinA).player.vy = sinA * knockbackSpeed ∧
    (playerHit p h cosA sinA).contactEffectAt =
      some (p.x - cosA * 10, p.y - sinA * 10) := by
  refine ⟨?_, rfl, rfl, rfl, rfl, rfl⟩
  simp [playerHit, damagePlayer, hinv]

/-- Closed instance of the amended C8: an invincible player keeps its exact
health state across a touch. -/
theorem C8_invincible_skips_damage_only_witness :
    (playerHit
        { x := 7, y := 9, vx := 0, vy := 0, isKnockedBack := false,
          tinted := false }
        { health := 2, maxHealth := 5, invincible := true, dead := false,
          invincibilityResetDelay := some 1000 } 1 0).health =
      { health := 2, maxHealth := 5, invincible := true, dead := false,
        invincibilityResetDelay := some 1000 } :=
  (C8_invincible_skips_damage_only
      { x := 7, y := 9, vx := 0, vy := 0, isKnockedBack := false,
        tinted := false }
      { health := 2, maxHealth := 5, invincible := true, dead := false,
        invincibilityResetDelay := some 1000 } 1 0 rfl).1

/-! ### Spawn-point search (src/GameScene.js) -/

/-- The environment `getValidSpawnPoint` queries: the player position and
the two tile-layer lookups, folded into predicates over tile coordinates
(`wallBlocked` holds when a wall tile exists there with a truthy `collides`
property, `itemBlocked` when an items tile exists with a truthy `breakable`
property). -/
structure SpawnEnv where
  playerX : ℚ
  playerY : ℚ
  wallBlocked : Int × Int → Bool
  itemBlocked : Int × Int → Bool

/-- The tilemap is built from 16 by 16 pixel tiles, so
`map.worldToTileX(x)` is floor division by 16. -/
def tileSize : Int := 16

/-- `minDistanceFromPlayer = 100` in `getValidSpawnPoint`. -/
def minDistanceFromPlayer : ℚ := 100

/-- Squared distance from a point to the player
(`Phaser.Math.Distance.Between` squared; comparing squared distances is
equivalent to comparing distances since both are nonnegative). -/
def distSqToPlayer (env : SpawnEnv) (x y : ℚ) : ℚ :=
  (x - env.playerX) ^ 2 + (y - env.playerY) ^ 2

/-- The acceptance test of one rejection-sampling attempt: the sampled
point must not sit on a colliding wall tile nor on a breakable items tile,
and must be farther than `minDistanceFromPlayer` from the player. -/
def validSpawn (env : SpawnEnv) (pt : Int × Int) : Bool :=
  !(env.wallBlocked (pt.1 / tileSize, pt.2 / tileSize)) &&
    !(env.itemBlocked (pt.1 / tileSize, pt.2 / tileSize)) &&
    decide (minDistanceFromPlayer ^ 2 <
      distSqToPlayer env (pt.1 : ℚ) (pt.2 : ℚ))

/-- The `attempts < 50` bound of the while loop. -/
def maxSpawnAttempts : Nat := 50

/-- The rejection-sampling loop: `samples` is the stream of random
in-bounds points produced by `Phaser.Math.Between`; attempts `0` up to
`n - 1` are tried in order and the first valid one is returned. -/
def searchSpawn (env : SpawnEnv) (samples : Nat → Int × Int) :
    Nat → Option (Int × Int)
  | 0 => none
  | n + 1 =>
    match searchSpawn env samples n with
    | some p => some p
    | none => if validSpawn env (samples n) then some (samples n) else none

/-- The deterministic fallback: a point at radius 150 from the player along
the random angle whose cosine and sine are `cosA` and `sinA`. -/
def fallbackSpawn (env : SpawnEnv) (cosA sinA : ℚ) : ℚ × ℚ :=
  (env.playerX + cosA * 150, env.playerY + sinA * 150)

/-- A sampled integer point as world coordinates. -/
def intPointToWorld (p : Int × Int) : ℚ × ℚ := ((p.1 : ℚ), (p.2 : ℚ))

/-- Embedding of `GameScene.getValidSpawnPoint()`: up to 50 sampling
attempts, then the fallback point.  Always returns a point. -/
def getValidSpawnPoint (env : SpawnEnv) (samples : Nat → Int × Int)
    (cosA sinA : ℚ) : ℚ × ℚ :=
  ((searchSpawn env samples maxSpawnAttempts).map intPointToWorld).getD
    (fallbackSpawn env cosA sinA)

theorem searchSpawn_all_invalid (env : SpawnEnv)
    (samples : Nat → Int × Int) (n : Nat)
    (h : ∀ i < n, validSpawn env (samples i) = false) :
    searchSpawn env samples n = none := by
  induction n with
  | zero => rfl
  | succ n ih =>
    simp only [searchSpawn, ih (fun i hi => h i (Nat.lt_succ_of_lt hi))]
    simp [h n (Nat.lt_succ_self n)]

theorem searchSpawn_congr (env : SpawnEnv) (f g : Nat → Int × Int) (n : Nat)
    (h : ∀ i < n, f i = g i) :
    searchSpawn env f n = searchSpawn env g n := by
  induction n with
  | zero => rfl
  | succ n ih =>
    simp only [searchSpawn, ih (fun i hi => h i (Nat.lt_succ_of_lt hi)),
      h n (Nat.lt_succ_self n)]

/-- C6: the spawn search looks at no more than the first 50 samples (two
sample streams that agree there give the same point), and when every one of
those 50 attempts is invalid it still returns a point, namely the fallback
at exact squared distance `150 ^ 2` from the player along the given random
angle. -/
theorem C6_spawn_search_fallback (env : SpawnEnv)
    (samples : Nat → Int × Int) (cosA sinA : ℚ)
    (hAll : ∀ i < maxSpawnAttempts, validSpawn env (samples i) = false)
    (hUnit : cosA ^ 2 + sinA ^ 2 = 1) :
    getValidSpawnPoint env samples cosA sinA = fallbackSpawn env cosA sinA ∧
    distSqToPlayer env (fallbackSpawn env cosA sinA).1
      (fallbackSpawn env cosA sinA).2 = 150 ^ 2 ∧
    (∀ f g : Nat → Int × Int, (∀ i < maxSpawnAttempts, f i = g i) →
      getValidSpawnPoint env f cosA sinA =
        getValidSpawnPoint env g cosA sinA) := by
  refine ⟨?_, ?_, ?_⟩
  · rw [getValidSpawnPoint, searchSpawn_all_invalid env samples _ hAll]
    rfl
  · simp only [fallbackSpawn, distSqToPlayer]
    linear_combination (22500 : ℚ) * hUnit
  · intro f g hfg
    rw [getValidSpawnPoint, getValidSpawnPoint,
      searchSpawn_congr env f g _ hfg]

/-- Closed instance of C6: in a map whose every tile is a colliding wall,
all 50 attempts fail and the fallback along the angle with cosine 3/5 and
sine 4/5 is returned. -/
theorem C6_spawn_search_fallback_witness :
    getValidSpawnPoint
        { playerX := 0, playerY := 0, wallBlocked := fun _ => true,
          itemBlocked := fun _ => false }
        (fun _ => (50, 50)) (3 / 5) (4 / 5) =
      fallbackSpawn
        { playerX := 0, playerY := 0, wallBlocked := fun _ => true,
          itemBlocked := fun _ => false } (3 / 5) (4 / 5) :=
  (C6_spawn_search_fallback
      { playerX := 0, playerY := 0, wallBlocked := fun _ => true,
        itemBlocked := fun _ => false }
      (fun _ => (50, 50)) (3 / 5) (4 / 5)
      (fun _ _ => rfl) (by norm_num)).1

/-! ### Enemy constructor validation (src/Enemy.js) -/

/-- The animation-key set required by the Enemy config
(`idleLeft, idleRight, runLeft, runRight`). -/
structure AnimKeys where
  idleLeft : String
  idleRight : String
  runLeft : String
  runRight : String
  deriving Repr, DecidableEq

/-- The Enemy config fields involved in the constructor validation; a
missing field of the JavaScript option bag is `none`. -/
structure EnemyConfig where
  texture : Option String
  frame : Option String
  anims : Option AnimKeys
  deriving Repr, DecidableEq

/-- The data a successfully constructed Enemy starts with. -/
structure EnemyInit where
  texture : String
  frame : Option String
  animKeys : AnimKeys
  state : EnemyState
  deriving Repr, DecidableEq

/-- Boolean success test on `Except`. -/
def exceptIsOk {ε α : Type} : Except ε α → Bool
  | .ok _ => true
  | .error _ => false

/-- Embedding of the Enemy constructor validation: `!config ||
!config.texture` throws (the empty string is falsy in JavaScript, hence the
extra branch), then `!config.anims` throws; otherwise the enemy is created
with the constructor-initialised combat fields. -/
def mkEnemy (x y : Int) (config : Option EnemyConfig) :
    Except String EnemyInit :=
  match config with
  | none => .error "Enemy requires a texture property in the config."
  | some cfg =>
    match cfg.texture with
    | none => .error "Enemy requires a texture property in the config."
    | some t =>
      if t = "" then .error "Enemy requires a texture property in the config."
      else
        match cfg.anims with
        | none =>
          .error "Enemy requires an anims object in the config with idleLeft, idleRight, runLeft, and runRight keys."
        | some a =>
          .ok { texture := t, frame := cfg.frame, animKeys := a,
                state :=
                  { x := x, y := y, vx := 0, vy := 0, stunned := false,
                    tinted := false, isDying := false, hitsTaken := 0,
                    lastHitTime := 0 } }

/-- C9: constructing an Enemy with no config, with a config lacking a
texture identifier, or with a config lacking the animation-key set, fails
at creation time for every such config; construction with both present
(a nonempty texture key and an anims object) succeeds. -/
theorem C9_enemy_constructor_validation (x y : Int) (cfg : EnemyConfig)
    (t : String) (a : AnimKeys) (ht : cfg.texture = some t) (hne : t ≠ "")
    (ha : cfg.anims = some a) :
    exceptIsOk (mkEnemy x y none) = false ∧
    (∀ c : EnemyConfig, c.texture = none →
      exceptIsOk (mkEnemy x y (some c)) = false) ∧
    (∀ c : EnemyConfig, c.anims = none →
      exceptIsOk (mkEnemy x y (some c)) = false) ∧
    exceptIsOk (mkEnemy x y (some cfg)) = true := by
  refine ⟨rfl, ?_, ?_, ?_⟩
  · intro c hc
    simp [mkEnemy, hc, exceptIsOk]
  · intro c hc
    cases htex : c.texture with
    | none => simp [mkEnemy, htex, exceptIsOk]
    | some t0 =>
      by_cases h0 : t0 = ""
      · simp [mkEnemy, htex, h0, exceptIsOk]
      · simp [mkEnemy, htex, h0, hc, exceptIsOk]
  · simp [mkEnemy, ht, hne, ha, exceptIsOk]

/-- Closed instance of C9: the goblin config used by `spawnEnemy`
constructs successfully, and dropping its anims object fails. -/
theorem C9_enemy_constructor_validation_witness :
    exceptIsOk
        (mkEnemy 100 200
          (some
            { texture := some "goblin",
              frame := some "goblin_idle_anim_f0.png",
              anims := some
                { idleLeft := "goblin-idle-left",
                  idleRight := "goblin-idle-right",
                  runLeft := "goblin-run-left",
                  runRight := "goblin-run-right" } })) = true ∧
    exceptIsOk
        (mkEnemy 100 200
          (some
            { texture := some "goblin",
              frame := some "goblin_idle_anim_f0.png",
              anims := none })) = false :=
  ⟨(C9_enemy_constructor_validation 100 200
      { texture := some "goblin", frame := some "goblin_idle_anim_f0.png",
        anims := some
          { idleLeft := "goblin-idle-left",
            idleRight := "goblin-idle-right",
            runLeft := "goblin-run-left",
            runRight := "goblin-run-right" } }
      "goblin"
      { idleLeft := "goblin-idle-left", idleRight := "goblin-idle-right",
        runLeft := "goblin-run-left", runRight := "goblin-run-right" }
      rfl (by decide) rfl).2.2.2,
   (C9_enemy_constructor_validation 100 200
      { texture := some "goblin", frame := some "goblin_idle_anim_f0.png",
        anims := some
          { idleLeft := "goblin-idle-left",
            idleRight := "goblin-idle-right",
            runLeft := "goblin-run-left",
            runRight := "goblin-run-right" } }
      "goblin"
      { idleLeft := "goblin-idle-left", idleRight := "goblin-idle-right",
        runLeft := "goblin-run-left", runRight := "goblin-run-right" }
      rfl (by decide) rfl).2.2.1
      { texture := some "goblin", frame := some "goblin_idle_anim_f0.png",
        anims := none } rfl⟩

end Phaser3Demo
